import Mathlib

/-!
Verification of the options/configuration model of `ang-jsoneditor`
(`src/ang-jsoneditor/src/jsoneditor/jsoneditoroptions.ts`).

The module under verification is a declarative configuration contract:
a class `JsonEditorOptions` whose fields are the recognized configuration
keys and whose parameterless constructor installs the documented defaults.

Shallow-embedding conventions:
* Each TypeScript field is modelled as an `Option`-typed field of a Lean
  structure: `none` is an absent/`undefined` field, `some v` a present one.
* JavaScript objects, functions and DOM elements are compared by reference
  identity at runtime; values of object-, callback- and element-typed
  fields are therefore modelled as opaque reference identifiers (`JSRef`,
  a natural number standing for a heap reference).  Preserving the
  identifier models preserving the reference, i.e. wholesale replacement
  with no field-by-field merging.
* TypeScript numbers are modelled as `Int` (all numeric option values of
  interest are integers: indentation 2, maxVisibleChilds 100).
-/

/-- The `JsonEditorMode` union type (`jsoneditoroptions.ts` line 1):
`tree | view | form | text | code | preview`. -/
inductive JsonEditorMode where
  | tree
  | view
  | form
  | text
  | code
  | preview
deriving DecidableEq, Repr

/-- An opaque JavaScript reference (object, function, or DOM element),
compared by reference identity as in the JavaScript runtime. -/
abbrev JSRef := Nat

/-- The recognized configuration fields of class `JsonEditorOptions`
(`jsoneditoroptions.ts` lines 70..383), in source order.  Every field is
optional on input (`none` = absent or `undefined`).  Object-, callback-
and element-typed fields carry an opaque `JSRef`; `timestampTag` is
`boolean | function`, hence `Bool ⊕ JSRef`. -/
structure OptionsObject where
  ace : Option JSRef
  ajv : Option JSRef
  onChange : Option JSRef
  onChangeJSON : Option JSRef
  onChangeText : Option JSRef
  onClassName : Option JSRef
  onEditable : Option JSRef
  onError : Option JSRef
  onModeChange : Option JSRef
  onNodeName : Option JSRef
  onValidate : Option JSRef
  onValidationError : Option JSRef
  onCreateMenu : Option JSRef
  escapeUnicode : Option Bool
  sortObjectKeys : Option Bool
  history : Option Bool
  mode : Option JsonEditorMode
  modes : Option (List JsonEditorMode)
  name : Option String
  schema : Option JSRef
  schemaRefs : Option JSRef
  search : Option Bool
  indentation : Option Int
  theme : Option Int
  templates : Option JSRef
  autocomplete : Option JSRef
  mainMenuBar : Option Bool
  navigationBar : Option Bool
  statusBar : Option Bool
  onTextSelectionChange : Option JSRef
  onSelectionChange : Option JSRef
  onEvent : Option JSRef
  colorPicker : Option Bool
  onColorPicker : Option JSRef
  timestampTag : Option (Bool ⊕ JSRef)
  timestampFormat : Option JSRef
  language : Option String
  languages : Option JSRef
  modalAnchor : Option JSRef
  popupAnchor : Option JSRef
  enableSort : Option Bool
  enableTransform : Option Bool
  maxVisibleChilds : Option Int
  createQuery : Option JSRef
  executeQuery : Option JSRef
  queryDescription : Option String
  expandAll : Option Bool
deriving DecidableEq, Repr

/-- The parameterless constructor of `JsonEditorOptions`
(`jsoneditoroptions.ts` lines 385..401), modelled as a function of the
trivial input `Unit` (it takes no arguments and reads no external state).
It assigns exactly the fourteen defaults of the constructor body and
leaves every other field undefined. -/
def JsonEditorOptions_construct (_ : Unit) : OptionsObject where
  ace := none
  ajv := none
  onChange := none
  onChangeJSON := none
  onChangeText := none
  onClassName := none
  onEditable := none
  onError := none
  onModeChange := none
  onNodeName := none
  onValidate := none
  onValidationError := none
  onCreateMenu := none
  escapeUnicode := some false
  sortObjectKeys := some false
  history := some true
  mode := some JsonEditorMode.tree
  modes := none
  name := none
  schema := none
  schemaRefs := none
  search := some true
  indentation := some 2
  theme := none
  templates := none
  autocomplete := none
  mainMenuBar := some true
  navigationBar := some true
  statusBar := some true
  onTextSelectionChange := none
  onSelectionChange := none
  onEvent := none
  colorPicker := some true
  onColorPicker := none
  timestampTag := none
  timestampFormat := none
  language := none
  languages := none
  modalAnchor := none
  popupAnchor := none
  enableSort := some true
  enableTransform := some true
  maxVisibleChilds := some 100
  createQuery := none
  executeQuery := none
  queryDescription := none
  expandAll := some false

/-- The default configuration `new JsonEditorOptions()`. -/
def JsonEditorOptions_new : OptionsObject := JsonEditorOptions_construct ()

/-- The empty configuration: every recognized field absent. -/
def emptyOptions : OptionsObject where
  ace := none
  ajv := none
  onChange := none
  onChangeJSON := none
  onChangeText := none
  onClassName := none
  onEditable := none
  onError := none
  onModeChange := none
  onNodeName := none
  onValidate := none
  onValidationError := none
  onCreateMenu := none
  escapeUnicode := none
  sortObjectKeys := none
  history := none
  mode := none
  modes := none
  name := none
  schema := none
  schemaRefs := none
  search := none
  indentation := none
  theme := none
  templates := none
  autocomplete := none
  mainMenuBar := none
  navigationBar := none
  statusBar := none
  onTextSelectionChange := none
  onSelectionChange := none
  onEvent := none
  colorPicker := none
  onColorPicker := none
  timestampTag := none
  timestampFormat := none
  language := none
  languages := none
  modalAnchor := none
  popupAnchor := none
  enableSort := none
  enableTransform := none
  maxVisibleChilds := none
  createQuery := none
  executeQuery := none
  queryDescription := none
  expandAll := none

/-- Field-wise merge of a configuration `p` over a base `q`: a field
present in `p` keeps the caller's value (by identity, wholesale — object
fields carry an atomic reference), an absent field falls back to `q`.
This is the runtime effect of constructing the base object and assigning
the caller's present fields on top of it. -/
def mergeOver (p q : OptionsObject) : OptionsObject where
  ace := p.ace <|> q.ace
  ajv := p.ajv <|> q.ajv
  onChange := p.onChange <|> q.onChange
  onChangeJSON := p.onChangeJSON <|> q.onChangeJSON
  onChangeText := p.onChangeText <|> q.onChangeText
  onClassName := p.onClassName <|> q.onClassName
  onEditable := p.onEditable <|> q.onEditable
  onError := p.onError <|> q.onError
  onModeChange := p.onModeChange <|> q.onModeChange
  onNodeName := p.onNodeName <|> q.onNodeName
  onValidate := p.onValidate <|> q.onValidate
  onValidationError := p.onValidationError <|> q.onValidationError
  onCreateMenu := p.onCreateMenu <|> q.onCreateMenu
  escapeUnicode := p.escapeUnicode <|> q.escapeUnicode
  sortObjectKeys := p.sortObjectKeys <|> q.sortObjectKeys
  history := p.history <|> q.history
  mode := p.mode <|> q.mode
  modes := p.modes <|> q.modes
  name := p.name <|> q.name
  schema := p.schema <|> q.schema
  schemaRefs := p.schemaRefs <|> q.schemaRefs
  search := p.search <|> q.search
  indentation := p.indentation <|> q.indentation
  theme := p.theme <|> q.theme
  templates := p.templates <|> q.templates
  autocomplete := p.autocomplete <|> q.autocomplete
  mainMenuBar := p.mainMenuBar <|> q.mainMenuBar
  navigationBar := p.navigationBar <|> q.navigationBar
  statusBar := p.statusBar <|> q.statusBar
  onTextSelectionChange := p.onTextSelectionChange <|> q.onTextSelectionChange
  onSelectionChange := p.onSelectionChange <|> q.onSelectionChange
  onEvent := p.onEvent <|> q.onEvent
  colorPicker := p.colorPicker <|> q.colorPicker
  onColorPicker := p.onColorPicker <|> q.onColorPicker
  timestampTag := p.timestampTag <|> q.timestampTag
  timestampFormat := p.timestampFormat <|> q.timestampFormat
  language := p.language <|> q.language
  languages := p.languages <|> q.languages
  modalAnchor := p.modalAnchor <|> q.modalAnchor
  popupAnchor := p.popupAnchor <|> q.popupAnchor
  enableSort := p.enableSort <|> q.enableSort
  enableTransform := p.enableTransform <|> q.enableTransform
  maxVisibleChilds := p.maxVisibleChilds <|> q.maxVisibleChilds
  createQuery := p.createQuery <|> q.createQuery
  executeQuery := p.executeQuery <|> q.executeQuery
  queryDescription := p.queryDescription <|> q.queryDescription
  expandAll := p.expandAll <|> q.expandAll

/-- Modelled from the spec: the Defaulting Engine
`resolve(partial) -> Configuration`.  The source ships no standalone
`resolve` function; its defaulting behavior lives in the parameterless
constructor (`jsoneditoroptions.ts` lines 385..401), and a host applies a
partial configuration by assigning its present fields over a freshly
constructed object.  `resolve` is that composite: merge the partial
configuration over `new JsonEditorOptions()`. -/
def resolve (p : OptionsObject) : OptionsObject :=
  mergeOver p JsonEditorOptions_new

lemma orElse_some_right {α : Type} (o : Option α) (d : α) :
    (o <|> some d) = some (o.getD d) := by
  cases o <;> rfl

lemma orElse_none_right {α : Type} (o : Option α) :
    (o <|> (none : Option α)) = o := by
  cases o <;> rfl

lemma orElse_orElse_self {α : Type} (o q : Option α) :
    ((o <|> q) <|> q) = (o <|> q) := by
  cases o <;> cases q <;> rfl

/-- C1: resolving the empty partial configuration — equivalently, the
object produced by the parameterless constructor `new JsonEditorOptions()`
— carries exactly the documented defaults (escapeUnicode=false,
sortObjectKeys=false, history=true, mode=tree, search=true, indentation=2,
mainMenuBar=true, navigationBar=true, statusBar=true, colorPicker=true,
enableSort=true, enableTransform=true, maxVisibleChilds=100,
expandAll=false) and leaves every other recognized field undefined. -/
theorem resolve_empty_gives_documented_defaults :
    resolve emptyOptions = JsonEditorOptions_new ∧
    JsonEditorOptions_new.escapeUnicode = some false ∧
    JsonEditorOptions_new.sortObjectKeys = some false ∧
    JsonEditorOptions_new.history = some true ∧
    JsonEditorOptions_new.mode = some JsonEditorMode.tree ∧
    JsonEditorOptions_new.search = some true ∧
    JsonEditorOptions_new.indentation = some 2 ∧
    JsonEditorOptions_new.mainMenuBar = some true ∧
    JsonEditorOptions_new.navigationBar = some true ∧
    JsonEditorOptions_new.statusBar = some true ∧
    JsonEditorOptions_new.colorPicker = some true ∧
    JsonEditorOptions_new.enableSort = some true ∧
    JsonEditorOptions_new.enableTransform = some true ∧
    JsonEditorOptions_new.maxVisibleChilds = some 100 ∧
    JsonEditorOptions_new.expandAll = some false ∧
    JsonEditorOptions_new.ace = none ∧
    JsonEditorOptions_new.ajv = none ∧
    JsonEditorOptions_new.onChange = none ∧
    JsonEditorOptions_new.onChangeJSON = none ∧
    JsonEditorOptions_new.onChangeText = none ∧
    JsonEditorOptions_new.onClassName = none ∧
    JsonEditorOptions_new.onEditable = none ∧
    JsonEditorOptions_new.onError = none ∧
    JsonEditorOptions_new.onModeChange = none ∧
    JsonEditorOptions_new.onNodeName = none ∧
    JsonEditorOptions_new.onValidate = none ∧
    JsonEditorOptions_new.onValidationError = none ∧
    JsonEditorOptions_new.onCreateMenu = none ∧
    JsonEditorOptions_new.modes = none ∧
    JsonEditorOptions_new.name = none ∧
    JsonEditorOptions_new.schema = none ∧
    JsonEditorOptions_new.schemaRefs = none ∧
    JsonEditorOptions_new.theme = none ∧
    JsonEditorOptions_new.templates = none ∧
    JsonEditorOptions_new.autocomplete = none ∧
    JsonEditorOptions_new.onTextSelectionChange = none ∧
    JsonEditorOptions_new.onSelectionChange = none ∧
    JsonEditorOptions_new.onEvent = none ∧
    JsonEditorOptions_new.onColorPicker = none ∧
    JsonEditorOptions_new.timestampTag = none ∧
    JsonEditorOptions_new.timestampFormat = none ∧
    JsonEditorOptions_new.language = none ∧
    JsonEditorOptions_new.languages = none ∧
    JsonEditorOptions_new.modalAnchor = none ∧
    JsonEditorOptions_new.popupAnchor = none ∧
    JsonEditorOptions_new.createQuery = none ∧
    JsonEditorOptions_new.executeQuery = none ∧
    JsonEditorOptions_new.queryDescription = none :=
  ⟨rfl, rfl, rfl, rfl, rfl, rfl, rfl, rfl, rfl, rfl, rfl, rfl, rfl, rfl, rfl, rfl, rfl, rfl, rfl, rfl, rfl, rfl, rfl, rfl, rfl, rfl, rfl, rfl, rfl, rfl, rfl, rfl, rfl, rfl, rfl, rfl, rfl, rfl, rfl, rfl, rfl, rfl, rfl, rfl, rfl, rfl, rfl, rfl⟩

/-- C2: for every partial configuration `p`, `resolve p` sets each
default-bearing field that is absent in `p` to its documented default and
keeps a present field's value unchanged (for a default-bearing field both
cases are summarized as `some (p.f.getD default)`), and copies every
non-default field through untouched — object-typed fields are carried as
atomic references, i.e. replaced wholesale, never deep-merged. -/
theorem resolve_defaults_absent_preserves_present (p : OptionsObject) :
    (resolve p).escapeUnicode = some (p.escapeUnicode.getD false) ∧
    (resolve p).sortObjectKeys = some (p.sortObjectKeys.getD false) ∧
    (resolve p).history = some (p.history.getD true) ∧
    (resolve p).mode = some (p.mode.getD JsonEditorMode.tree) ∧
    (resolve p).search = some (p.search.getD true) ∧
    (resolve p).indentation = some (p.indentation.getD 2) ∧
    (resolve p).mainMenuBar = some (p.mainMenuBar.getD true) ∧
    (resolve p).navigationBar = some (p.navigationBar.getD true) ∧
    (resolve p).statusBar = some (p.statusBar.getD true) ∧
    (resolve p).colorPicker = some (p.colorPicker.getD true) ∧
    (resolve p).enableSort = some (p.enableSort.getD true) ∧
    (resolve p).enableTransform = some (p.enableTransform.getD true) ∧
    (resolve p).maxVisibleChilds = some (p.maxVisibleChilds.getD 100) ∧
    (resolve p).expandAll = some (p.expandAll.getD false) ∧
    (resolve p).ace = p.ace ∧
    (resolve p).ajv = p.ajv ∧
    (resolve p).onChange = p.onChange ∧
    (resolve p).onChangeJSON = p.onChangeJSON ∧
    (resolve p).onChangeText = p.onChangeText ∧
    (resolve p).onClassName = p.onClassName ∧
    (resolve p).onEditable = p.onEditable ∧
    (resolve p).onError = p.onError ∧
    (resolve p).onModeChange = p.onModeChange ∧
    (resolve p).onNodeName = p.onNodeName ∧
    (resolve p).onValidate = p.onValidate ∧
    (resolve p).onValidationError = p.onValidationError ∧
    (resolve p).onCreateMenu = p.onCreateMenu ∧
    (resolve p).modes = p.modes ∧
    (resolve p).name = p.name ∧
    (resolve p).schema = p.schema ∧
    (resolve p).schemaRefs = p.schemaRefs ∧
    (resolve p).theme = p.theme ∧
    (resolve p).templates = p.templates ∧
    (resolve p).autocomplete = p.autocomplete ∧
    (resolve p).onTextSelectionChange = p.onTextSelectionChange ∧
    (resolve p).onSelectionChange = p.onSelectionChange ∧
    (resolve p).onEvent = p.onEvent ∧
    (resolve p).onColorPicker = p.onColorPicker ∧
    (resolve p).timestampTag = p.timestampTag ∧
    (resolve p).timestampFormat = p.timestampFormat ∧
    (resolve p).language = p.language ∧
    (resolve p).languages = p.languages ∧
    (resolve p).modalAnchor = p.modalAnchor ∧
    (resolve p).popupAnchor = p.popupAnchor ∧
    (resolve p).createQuery = p.createQuery ∧
    (resolve p).executeQuery = p.executeQuery ∧
    (resolve p).queryDescription = p.queryDescription := by
  simp only [resolve, mergeOver, JsonEditorOptions_new, JsonEditorOptions_construct,
    orElse_some_right, orElse_none_right]
  simp

/-- C3: `resolve` is idempotent — resolving an already-resolved
configuration changes nothing.  It is a pure function by construction
(a total Lean function of its argument, no state, no effects). -/
theorem resolve_idempotent (p : OptionsObject) :
    resolve (resolve p) = resolve p := by
  simp only [resolve, mergeOver, orElse_orElse_self]

/-- C9: default construction is deterministic — the constructor takes no
arguments and reads no external input, so any two configurations it
produces agree on every field (they are equal outright). -/
theorem construct_deterministic (u v : Unit) :
    JsonEditorOptions_construct u = JsonEditorOptions_construct v := rfl

/-!
Syntactic embedding of the TypeScript type annotations of the source.
The claims about callback contracts are claims about the declared
signatures, so the relevant type expressions are embedded as syntax
trees, written down verbatim from the source's annotations.
-/

/-- A TypeScript type expression, as written in the source's annotations.
`objT` lists an interface's fields as (name, optional?, declared type);
`unionT` is the binary `A | B`; `named` is a by-name reference to another
declared interface (used where the source refers to a recursive type). -/
inductive TSTy where
  | str
  | num
  | boolT
  | nullT
  | voidT
  | jsonT
  | lit (s : String)
  | arrayT (t : TSTy)
  | promiseT (t : TSTy)
  | unionT (a b : TSTy)
  | objT (fields : List (String × Bool × TSTy))
  | funcT (args : List TSTy) (ret : TSTy)
  | named (s : String)

/-- Return type of a declared function type. -/
def retTy : TSTy → Option TSTy
  | .funcT _ r => some r
  | _ => none

/-- Parameter types of a declared function type. -/
def argTys : TSTy → Option (List TSTy)
  | .funcT a _ => some a
  | _ => none

/-- The members of a union type (a non-union type is its own sole member). -/
def unionMembers : TSTy → List TSTy
  | .unionT a b => unionMembers a ++ unionMembers b
  | t => [t]

/-- Whether a type expression is an array type. -/
def isArrayTy : TSTy → Bool
  | .arrayT _ => true
  | _ => false

/-- Whether a type expression is the `null` type. -/
def isNullTy : TSTy → Bool
  | .nullT => true
  | _ => false

/-- A declared type admits `null` when `null` is among its union members. -/
def admitsNull (t : TSTy) : Bool := (unionMembers t).any isNullTy

/-- A declared type admits array values when an array type is among its
union members. -/
def admitsArray (t : TSTy) : Bool := (unionMembers t).any isArrayTy

/-- The field list of an interface/object type. -/
def objFields : TSTy → List (String × Bool × TSTy)
  | .objT fs => fs
  | _ => []

/-- The declared type of a named field of an interface. -/
def fieldTy (t : TSTy) (s : String) : Option TSTy :=
  ((objFields t).find? (fun f => f.1 == s)).map (fun f => f.2.2)

/-- The field names of an interface, in declaration order. -/
def fieldNames (t : TSTy) : List String := (objFields t).map (fun f => f.1)

/-- The names of the required (non-optional) fields of an interface. -/
def requiredFieldNames (t : TSTy) : List String :=
  ((objFields t).filter (fun f => !f.2.1)).map (fun f => f.1)

/-- `JsonEditorNodePath = Array<string | number>`
(`jsoneditoroptions.ts` line 3). -/
def nodePathTy : TSTy := .arrayT (.unionT .str .num)

/-- Interface `JsonEditorValidationError` (`jsoneditoroptions.ts` lines
17..20): required `path: JsonEditorNodePath` and `message: string`. -/
def validationErrorTy : TSTy :=
  .objT [("path", false, nodePathTy), ("message", false, .str)]

/-- Interface `JsonEditorNodeNameArgs` (`jsoneditoroptions.ts` lines
11..15): required `path: JsonEditorNodePath`, `size: number`, and
`type: 'object' | 'array'`. -/
def nodeNameArgsTy : TSTy :=
  .objT [("path", false, nodePathTy), ("size", false, .num),
         ("type", false, .unionT (.lit "object") (.lit "array"))]

/-- Interface `JsonEditorContextMenuNode` (`jsoneditoroptions.ts` lines
35..39): required `type: 'single' | 'multiple' | 'append'`,
`path: JsonEditorNodePath`, and `paths: Array<JsonEditorNodePath>`. -/
def contextMenuNodeTy : TSTy :=
  .objT [("type", false, .unionT (.lit "single")
                                 (.unionT (.lit "multiple") (.lit "append"))),
         ("path", false, nodePathTy),
         ("paths", false, .arrayT nodePathTy)]

/-- Declared type of the `onValidate` field (`jsoneditoroptions.ts` line
142): `(json: JSON) => Array<JsonEditorValidationError> |
Promise<Array<JsonEditorValidationError>>`. -/
def onValidateTy : TSTy :=
  .funcT [.jsonT]
    (.unionT (.arrayT validationErrorTy) (.promiseT (.arrayT validationErrorTy)))

/-- Declared type of the `onCreateMenu` field (`jsoneditoroptions.ts`
line 153): `(items: Array<JsonEditorContextMenuItem>,
node: JsonEditorContextMenuNode) => void`; the recursive item type is
kept as a by-name reference, the node interface is inlined. -/
def onCreateMenuTy : TSTy :=
  .funcT [.arrayT (.named "JsonEditorContextMenuItem"), contextMenuNodeTy] .voidT

/-- Declared type of the `onNodeName` field (`jsoneditoroptions.ts` line
137): `(args: JsonEditorNodeNameArgs) => string`; the args interface is
inlined by its lines 11..15 definition. -/
def onNodeNameTy : TSTy := .funcT [nodeNameArgsTy] .str

/-- C6: the declared `onValidate` callback takes the JSON document and
returns either an array of `JsonEditorValidationError` or a Promise of
such an array, and a `JsonEditorValidationError` is a record with a
required NodePath-valued `path` and a required string-valued `message`,
where a NodePath is an array of string-or-number segments. -/
theorem onValidate_contract :
    argTys onValidateTy = some [TSTy.jsonT] ∧
    retTy onValidateTy =
      some (.unionT (.arrayT validationErrorTy)
                    (.promiseT (.arrayT validationErrorTy))) ∧
    fieldNames validationErrorTy = ["path", "message"] ∧
    requiredFieldNames validationErrorTy = ["path", "message"] ∧
    fieldTy validationErrorTy "path" = some nodePathTy ∧
    fieldTy validationErrorTy "message" = some TSTy.str ∧
    nodePathTy = .arrayT (.unionT .str .num) :=
  ⟨rfl, rfl, rfl, rfl, rfl, rfl, rfl⟩

/-- C7 counterexample: the declared return type of `onCreateMenu` is
`void`, and `void` has no array type among its members, so the declared
return type does not admit an array of context-menu items — refuting the
claim that it admits both an item array and void. -/
theorem onCreateMenu_ret_void_only :
    retTy onCreateMenuTy = some TSTy.voidT ∧ admitsArray TSTy.voidT = false :=
  ⟨rfl, rfl⟩

/-- C7 amended: `onCreateMenu` is declared with the item list and the
context node as parameters, but its declared return type is `void` alone
— it does not declare the item-array return the upstream contract
describes. -/
theorem onCreateMenu_declared_signature :
    argTys onCreateMenuTy =
      some [.arrayT (.named "JsonEditorContextMenuItem"), contextMenuNodeTy] ∧
    retTy onCreateMenuTy = some TSTy.voidT ∧
    unionMembers TSTy.voidT = [TSTy.voidT] :=
  ⟨rfl, rfl, rfl⟩

/-- C8 counterexample: the declared return type of `onNodeName` is
`string`, and `null` is not among its union members — refuting the claim
that the declared return type admits null. -/
theorem onNodeName_ret_no_null :
    retTy onNodeNameTy = some TSTy.str ∧ admitsNull TSTy.str = false :=
  ⟨rfl, rfl⟩

/-- C8 amended: `onNodeName` takes an args record with required `path`
(NodePath), `size` (number) and `type` (the literal union
'object' | 'array'), and its declared return type is `string` alone,
not admitting null (the null/undefined fallback described by the spec is
the rendering engine's behavior, not part of this declaration). -/
theorem onNodeName_declared_signature :
    argTys onNodeNameTy = some [nodeNameArgsTy] ∧
    retTy onNodeNameTy = some TSTy.str ∧
    fieldNames nodeNameArgsTy = ["path", "size", "type"] ∧
    requiredFieldNames nodeNameArgsTy = ["path", "size", "type"] ∧
    fieldTy nodeNameArgsTy "path" = some nodePathTy ∧
    fieldTy nodeNameArgsTy "size" = some TSTy.num ∧
    fieldTy nodeNameArgsTy "type" =
      some (.unionT (.lit "object") (.lit "array")) :=
  ⟨rfl, rfl, rfl, rfl, rfl, rfl, rfl⟩

/-- C10: the `JsonEditorContextMenuNode` interface carries exactly three
fields — `type` (the literal union 'single' | 'multiple' | 'append'),
`path` (a NodePath) and `paths` (an array of NodePaths) — and all three
are required, the singular `path` and the plural `paths` simultaneously. -/
theorem contextMenuNode_shape :
    fieldNames contextMenuNodeTy = ["type", "path", "paths"] ∧
    requiredFieldNames contextMenuNodeTy = ["type", "path", "paths"] ∧
    fieldTy contextMenuNodeTy "type" =
      some (.unionT (.lit "single") (.unionT (.lit "multiple") (.lit "append"))) ∧
    fieldTy contextMenuNodeTy "path" = some nodePathTy ∧
    fieldTy contextMenuNodeTy "paths" = some (.arrayT nodePathTy) :=
  ⟨rfl, rfl, rfl, rfl, rfl⟩

/-- The configuration fields whose doc comments in the source restrict
them to particular editor modes (plus `mainMenuBar`, documented as
applicable in all modes). -/
inductive OptionField where
  | ace
  | onClassName
  | onEditable
  | sortObjectKeys
  | history
  | name
  | search
  | indentation
  | navigationBar
  | statusBar
  | enableSort
  | enableTransform
  | maxVisibleChilds
  | mainMenuBar
  | autocomplete
  | onCreateMenu
deriving DecidableEq, Repr

/-- Modelled from the spec: the Mode-Applicability Table
`isApplicable(field, mode)`.  The source ships no such function as code —
the mode restrictions exist only in the doc comments of
`jsoneditoroptions.ts` ("Only applicable when `mode` is ...", lines 74,
105, 112, 164, 172, 195, 215, 221, 247, 254, 262, 341, 347, 354, and the
autocomplete/onCreateMenu tree-mode remarks) — and the spec promotes that
comment table to an explicit lookup.  Each arm below transcribes one doc
comment. -/
def isApplicable (f : OptionField) (m : JsonEditorMode) : Bool :=
  match f with
  | .ace => m == .code
  | .onClassName => m == .tree || m == .form || m == .view
  | .onEditable => m == .tree || m == .text || m == .code
  | .sortObjectKeys => m == .tree || m == .view || m == .form
  | .history => m == .tree || m == .form || m == .preview
  | .name => m == .tree || m == .view || m == .form
  | .search => m == .tree || m == .view || m == .form
  | .indentation => m == .code || m == .text || m == .preview
  | .navigationBar => m == .tree || m == .form || m == .view
  | .statusBar => m == .code || m == .text || m == .preview
  | .enableSort => m == .tree
  | .enableTransform => m == .tree
  | .maxVisibleChilds => m == .tree || m == .view || m == .form
  | .mainMenuBar => true
  | .autocomplete => m == .tree
  | .onCreateMenu => m == .tree

/-- C4: `isApplicable` encodes the documented mode-applicability table —
`ace` only under code; `search` and `navigationBar` only under tree,
view or form; `indentation` and `statusBar` only under code, text or
preview; `enableSort` and `enableTransform` only under tree — and in
particular holds at ("ace", code) and fails at ("ace", tree).  It is a
pure function of its two arguments (a total Lean function, no state). -/
theorem isApplicable_table (m : JsonEditorMode) :
    (isApplicable .ace m = true ↔ m = .code) ∧
    (isApplicable .search m = true ↔ (m = .tree ∨ m = .view ∨ m = .form)) ∧
    (isApplicable .navigationBar m = true ↔
      (m = .tree ∨ m = .view ∨ m = .form)) ∧
    (isApplicable .indentation m = true ↔
      (m = .code ∨ m = .text ∨ m = .preview)) ∧
    (isApplicable .statusBar m = true ↔
      (m = .code ∨ m = .text ∨ m = .preview)) ∧
    (isApplicable .enableSort m = true ↔ m = .tree) ∧
    (isApplicable .enableTransform m = true ↔ m = .tree) ∧
    isApplicable .ace .code = true ∧
    isApplicable .ace .tree = false := by
  cases m <;> decide

/-!
Runtime view of the `mode` field for the error-handling claim.  At the
JavaScript runtime the TypeScript annotations are erased: the `mode`
property is an arbitrary string, the constructor assigns `'tree'`
unconditionally, and a host's subsequent assignment overwrites it with
whatever value it supplies.  No statement of the module inspects,
validates, or reports on any field value.
-/

/-- The six strings of the `JsonEditorMode` union
(`jsoneditoroptions.ts` line 1). -/
def jsonEditorModeStrings : List String :=
  ["tree", "view", "form", "text", "code", "preview"]

/-- The runtime resolution of the `mode` field: the constructor's
`this.mode = 'tree'` followed by the host's assignment when present.
No check of any kind is performed on the supplied string. -/
def resolveRawMode (m : Option String) : String := m.getD "tree"

/-- The diagnostics the module emits while resolving a configuration.
The source contains no validation or error-reporting code at all —
no throw statement, no error value, no console output — so the emitted
report is the empty list for every input. -/
def resolutionReport (_ : Option String) : List String := []

/-- C5 counterexample: at the concrete input mode = "bogus" — a string
outside the {tree,view,form,text,code,preview} enumeration — resolution
emits no descriptive error value at all (the report is empty) and simply
carries the invalid string through, refuting the claim that such a
configuration-shape error is reported at resolution time. -/
theorem mode_shape_error_unreported :
    "bogus" ∉ jsonEditorModeStrings ∧
    resolutionReport (some "bogus") = [] ∧
    resolveRawMode (some "bogus") = "bogus" := by
  refine ⟨by decide, rfl, rfl⟩

/-- C5 amended: resolution performs no runtime shape checking whatever —
it reports no error value for any input (the module has no
error-reporting code), it never throws (it is a total function), and it
always produces a best-effort configuration, carrying the supplied mode
string through unchanged and defaulting an absent one to "tree". -/
theorem resolution_reports_nothing (m : Option String) :
    resolutionReport m = [] ∧ resolveRawMode m = m.getD "tree" :=
  ⟨rfl, rfl⟩
